import Mathlib

/-!
# Shallow embedding of the reduced.to shortener and analytics controllers

This file embeds, in Lean, the behaviour of `ShortenerController` (link
resolution, single-link creation, bulk creation), the backend DTO
validation of requested keys, the frontend link-modal key schema, and
`AnalyticsController` (per-key analytics queries).  Collaborating
services that are not among the sources (`ShortenerService.getLink`,
`ShortenerProducer.publish`, the `addUtmParams` utility) are either taken
as function parameters or modelled from the specification, as indicated
on each definition.
-/

deriving instance DecidableEq for Except

namespace ReducedTo

/-- Typed failures thrown by the controllers (NestJS HTTP exceptions). -/
inductive HttpError where
  | badRequest (msg : String)
  | unauthorized (msg : String)
  | notFound (msg : String)
deriving DecidableEq

/-- A stored link record as returned by `ShortenerService.getLink`: canonical
key, destination URL, optional password hash, optional expiry instant and the
stored UTM parameter set (present parameters only). -/
structure Link where
  key : String
  url : String
  password : Option String
  expiresAt : Option Nat
  utm : List (String × String)
deriving DecidableEq

/-- The body returned by `ShortenerController.findOne` on success. -/
structure LinkResponse where
  url : String
  key : String
deriving DecidableEq

/-- The click event handed to `ShortenerProducer.publish` (client details
elided to the referer header; key and destination of the resolved link). -/
structure ClickEvent where
  referer : Option String
  key : String
  url : String
deriving DecidableEq

/-- One observable step of the resolution request handler, in execution
order: the store lookup, the publish call and its completion, the error log,
the response or the thrown exception. -/
inductive Step where
  | getLinkCall (key : String)
  | publishCall (ev : ClickEvent)
  | publishDone (ok : Bool)
  | logErrorStep (msg : String)
  | respond (r : LinkResponse)
  | throwErr (e : HttpError)
deriving DecidableEq

/-- Full outcome of one `findOne` request: the HTTP result, the logger
output, and the ordered trace of steps the handler performed. -/
structure FindOneOut where
  result : Except HttpError LinkResponse
  logs : List String
  trace : List Step
deriving DecidableEq

/-- Modelled from the spec: `addUtmParams` comes from the shared utils
library, which is not among the sources.  Per the spec it appends the
link's stored UTM parameters to the destination URL as query parameters,
appending a parameter only when it is present in the stored set and never
appending a parameter with an empty value. -/
def addUtmParams (url : String) (utm : List (String × String)) : String :=
  (utm.filter fun p => !p.2.isEmpty).foldl
    (fun u p => u ++ (if u.data.contains '?' then "&" else "?") ++ p.1 ++ "=" ++ p.2) url

/-- The tail of `ShortenerController.findOne` after the password gate: the
handler awaits `shortenerProducer.publish` inside a try/catch (a failure is
logged, never rethrown) and then returns the destination URL with UTM
parameters appended together with the canonical key. -/
def findOnePublish (data : Link) (pubRes : Except String Unit) (key : String)
    (referer : Option String) : FindOneOut :=
  let ev : ClickEvent := ⟨referer, data.key, data.url⟩
  let r : LinkResponse := ⟨addUtmParams data.url data.utm, data.key⟩
  match pubRes with
  | Except.ok _ =>
    ⟨Except.ok r, [],
      [Step.getLinkCall key, Step.publishCall ev, Step.publishDone true, Step.respond r]⟩
  | Except.error m =>
    let msg := "Error while publishing shortened url: " ++ m
    ⟨Except.ok r, [msg],
      [Step.getLinkCall key, Step.publishCall ev, Step.publishDone false,
        Step.logErrorStep msg, Step.respond r]⟩

/-- `ShortenerController.findOne`: look the key up (`gl` stands for
`shortenerService.getLink`), throw 400 when no data comes back, throw 401
when the link carries a password hash that the supplied password does not
verify against (`verify` stands for `shortenerService.verifyPassword`),
then publish the click event and respond.  `pubRes` is the outcome of the
awaited `publish` call. -/
def findOne (gl : String → Option Link) (verify : String → String → Bool)
    (pubRes : Except String Unit) (key pw : String) (referer : Option String) : FindOneOut :=
  match gl key with
  | none =>
    let e := HttpError.badRequest "Shortened url is wrong or expired"
    ⟨Except.error e, [], [Step.getLinkCall key, Step.throwErr e]⟩
  | some data =>
    match data.password with
    | some ph =>
      if !ph.isEmpty && verify ph pw == false then
        let e := HttpError.unauthorized "Incorrect password for this url!"
        ⟨Except.error e, [], [Step.getLinkCall key, Step.throwErr e]⟩
      else findOnePublish data pubRes key referer
    | none => findOnePublish data pubRes key referer

/-- Modelled from the spec: `ShortenerService.getLink` is not among the
sources.  Per the spec the lookup returns the link only when an active link
matches the key and the link is not past `expiresAt`; an expired link and an
absent key both come back empty. -/
def getLink (store : List Link) (now : Nat) (key : String) : Option Link :=
  match store.find? (fun l => l.key == key) with
  | none => none
  | some l =>
    match l.expiresAt with
    | none => some l
    | some t => if t < now then none else some l

/-- One step of the producer-side publish, per the spec's contract. -/
inductive ProducerStep where
  | enqueue
  | persist
deriving DecidableEq

/-- Modelled from the spec: `ShortenerProducer.publish` is not among the
sources.  Per the spec it enqueues onto the channel (or dispatches to the
message-queue client) and returns without waiting for durable persistence,
so its step sequence contains the enqueue only. -/
def publishSteps : List ProducerStep := [ProducerStep.enqueue]

/-- The request body of the creation endpoints (`ShortenerDto`), restricted
to the fields the creation paths inspect: destination url, optional
requested key, optional password, and the temporary flag (an absent flag is
modelled as false). -/
structure ShortenerDto where
  url : String
  key : Option String
  password : Option String
  temporary : Bool
deriving DecidableEq

/-- The caller identity attached by the (optional) JWT guard. -/
structure UserContext where
  id : String
  verified : Bool
deriving DecidableEq

/-- The collaborating services of the creation endpoints: the safe-url
config toggle and `safeUrlService.isSafeUrl`,
`shortenerService.isKeyAvailable`, `shortenerService.hashPassword` and
`usageService.isEligibleToCreateLink`. -/
structure Env where
  safeUrlEnable : Bool
  isSafe : String → Bool
  keyAvailable : String → Bool
  hash : String → String
  eligible : String → Bool

/-- A check or transformation step performed by a creation endpoint, in
execution order. -/
inductive CheckStep where
  | safeUrlCheck (url : String)
  | keyAvailabilityCheck (k : String)
  | temporaryHandling
  | verifiedCheck
  | passwordHashing
  | quotaCheck (userId : String)
deriving DecidableEq

/-- The shortener-service call a creation endpoint ends in:
`createShortenedUrl(rest)` for temporary links, or
`createUsersShortenedUrl(user, dto)`. -/
inductive CreateCall where
  | createTemporary (dto : ShortenerDto)
  | createForUser (userId : String) (dto : ShortenerDto)
deriving DecidableEq

/-- The tail of `ShortenerController.shortener` after the safe-url and
key-availability gates: temporary handling (the password field is
destructured away before `createShortenedUrl`), the verification gate,
password hashing (only for a truthy password), the quota gate, and finally
`createUsersShortenedUrl`.  `pre` is the trace accumulated so far. -/
def shortenerAfterKey (env : Env) (user : Option UserContext) (dto : ShortenerDto)
    (pre : List CheckStep) : Except HttpError CreateCall × List CheckStep :=
  if dto.temporary then
    (Except.ok (CreateCall.createTemporary ⟨dto.url, dto.key, none, dto.temporary⟩),
      pre ++ [CheckStep.temporaryHandling])
  else
    match user with
    | some u =>
      if u.verified then
        let hashed : ShortenerDto :=
          match dto.password with
          | some p => if p.isEmpty then dto else ⟨dto.url, dto.key, some (env.hash p), dto.temporary⟩
          | none => dto
        let hashStep : List CheckStep :=
          match dto.password with
          | some p => if p.isEmpty then [] else [CheckStep.passwordHashing]
          | none => []
        let steps := pre ++ [CheckStep.verifiedCheck] ++ hashStep ++ [CheckStep.quotaCheck u.id]
        if env.eligible u.id then
          (Except.ok (CreateCall.createForUser u.id hashed), steps)
        else
          (Except.error (HttpError.badRequest "You have reached your link creation limit"), steps)
      else
        (Except.error (HttpError.badRequest "You must be verified in to create a shortened url"),
          pre ++ [CheckStep.verifiedCheck])
    | none =>
      (Except.error (HttpError.badRequest "You must be verified in to create a shortened url"),
        pre ++ [CheckStep.verifiedCheck])

/-- `ShortenerController.shortener` (single-link creation): safe-url check
when enabled, availability pre-check for a truthy requested key, then the
temporary/verified/hash/quota tail.  Returns the HTTP outcome paired with
the ordered list of checks performed. -/
def shortener (env : Env) (user : Option UserContext) (dto : ShortenerDto) :
    Except HttpError CreateCall × List CheckStep :=
  let safeSteps := if env.safeUrlEnable then [CheckStep.safeUrlCheck dto.url] else []
  if env.safeUrlEnable && !env.isSafe dto.url then
    (Except.error (HttpError.badRequest "This url is not safe to shorten!"), safeSteps)
  else
    match dto.key with
    | some k =>
      if k.isEmpty then shortenerAfterKey env user dto safeSteps
      else if !env.keyAvailable k then
        (Except.error (HttpError.badRequest "This short link already exists"),
          safeSteps ++ [CheckStep.keyAvailabilityCheck k])
      else
        shortenerAfterKey env user dto (safeSteps ++ [CheckStep.keyAvailabilityCheck k])
    | none => shortenerAfterKey env user dto safeSteps

/-- `ShortenerController.bulk`: safe-url check over every submitted item
when enabled, the verification gate, then one `createUsersShortenedUrl`
call per item with the item passed through unchanged.  No availability
pre-check, no temporary handling, no hashing, no quota gate. -/
def bulk (env : Env) (user : Option UserContext) (dtos : List ShortenerDto) :
    Except HttpError (List CreateCall) × List CheckStep :=
  let safeSteps :=
    if env.safeUrlEnable then dtos.map (fun d => CheckStep.safeUrlCheck d.url) else []
  if env.safeUrlEnable && !(dtos.all fun d => env.isSafe d.url) then
    (Except.error (HttpError.badRequest "This url is not safe to shorten!"), safeSteps)
  else
    match user with
    | some u =>
      if u.verified then
        (Except.ok (dtos.map fun d => CreateCall.createForUser u.id d),
          safeSteps ++ [CheckStep.verifiedCheck])
      else
        (Except.error (HttpError.badRequest "You must be verified in to create a shortened url"),
          safeSteps ++ [CheckStep.verifiedCheck])
    | none =>
      (Except.error (HttpError.badRequest "You must be verified in to create a shortened url"),
        safeSteps ++ [CheckStep.verifiedCheck])

/-- The character class of the frontend key schema regex `[a-zA-Z0-9-]`. -/
def isKeyChar (c : Char) : Bool := c.isAlpha || c.isDigit || c == '-'

/-- Backend `ShortenerDto.key` validation (class-validator): `IsString`,
`MaxLength(20)`, `MinLength(4)`.  There is no character-class constraint. -/
def dtoKeyValid (s : String) : Bool := decide (4 ≤ s.length) && decide (s.length ≤ 20)

/-- Frontend `CreateLinkInputSchema.key` (zod): `max(20)`, the regex
anchored over `[a-zA-Z0-9-]*`, and a refinement that accepts an empty value
but rejects a non-empty value shorter than 4 characters. -/
def zodKeyValid (s : String) : Bool :=
  decide (s.length ≤ 20) && s.data.all isKeyChar &&
    (s.length == 0 || decide (4 ≤ s.length))

/-- A stored link row as selected by the analytics controller's prisma
lookup. -/
structure StoredLink where
  id : String
  key : String
  userId : String
  url : String
deriving DecidableEq

/-- `AnalyticsController.findLink`: prisma `link.findUnique` filtered on
both the key and the requesting user's id; a missing row throws 404
`Link not found`. -/
def findLink (db : List StoredLink) (key userId : String) : Except HttpError StoredLink :=
  match db.find? (fun l => l.key == key && l.userId == userId) with
  | none => Except.error (HttpError.notFound "Link not found")
  | some l => Except.ok l

/-- Secondary dimension joined through the prisma `include` argument of the
grouped query (`country: true` for the city handler). -/
structure IncludeSpec where
  country : Bool
deriving DecidableEq

/-- `AnalyticsController.getAnalytics` (clicks over time): find the
caller's link first, then aggregate; `clicksOverTime` stands for
`analyticsService.getClicksOverTime` applied to the link id. -/
def getAnalytics {α : Type} (db : List StoredLink) (clicksOverTime : String → Nat → α)
    (key userId : String) (days : Nat) : Except HttpError (String × α) :=
  (findLink db key userId).map fun link => (link.url, clicksOverTime link.id days)

/-- `AnalyticsController.getGroupedData`: find the caller's link first,
then run the grouped aggregation; `grouped` stands for
`analyticsService.getGroupedByField` applied to the link id. -/
def getGroupedData {β : Type} (db : List StoredLink)
    (grouped : String → String → Nat → Option IncludeSpec → β)
    (key userId : String) (days : Nat) (field : String) (inc : Option IncludeSpec) :
    Except HttpError (String × β) :=
  (findLink db key userId).map fun link => (link.url, grouped link.id field days inc)

/-- The grouped-aggregation request a dimension handler issues. -/
structure GroupedCall where
  key : String
  userId : String
  days : Nat
  field : String
  inc : Option IncludeSpec
deriving DecidableEq

/-- `AnalyticsController.getDevices` delegates to `getGroupedData` with the
`device` dimension and no include. -/
def getDevicesCall (key userId : String) (days : Nat) : GroupedCall :=
  ⟨key, userId, days, "device", none⟩

/-- `AnalyticsController.getOs` delegates with the `os` dimension. -/
def getOsCall (key userId : String) (days : Nat) : GroupedCall :=
  ⟨key, userId, days, "os", none⟩

/-- `AnalyticsController.getBrowsers` delegates with the `browser`
dimension. -/
def getBrowsersCall (key userId : String) (days : Nat) : GroupedCall :=
  ⟨key, userId, days, "browser", none⟩

/-- `AnalyticsController.getCountries` delegates with the `country`
dimension. -/
def getCountriesCall (key userId : String) (days : Nat) : GroupedCall :=
  ⟨key, userId, days, "country", none⟩

/-- `AnalyticsController.getRegions` delegates with the `region`
dimension. -/
def getRegionsCall (key userId : String) (days : Nat) : GroupedCall :=
  ⟨key, userId, days, "region", none⟩

/-- `AnalyticsController.getCities` delegates with the `city` dimension and
the include joining the country dimension. -/
def getCitiesCall (key userId : String) (days : Nat) : GroupedCall :=
  ⟨key, userId, days, "city", some ⟨true⟩⟩

/-- Dispatch of a handler's request through `getGroupedData`. -/
def runGroupedCall {β : Type} (db : List StoredLink)
    (grouped : String → String → Nat → Option IncludeSpec → β) (c : GroupedCall) :
    Except HttpError (String × β) :=
  getGroupedData db grouped c.key c.userId c.days c.field c.inc

/-- The grouped-dimension handlers of `AnalyticsController`, in declaration
order. -/
def groupedHandlers (key userId : String) (days : Nat) : List GroupedCall :=
  [getDevicesCall key userId days, getOsCall key userId days,
    getBrowsersCall key userId days, getCountriesCall key userId days,
    getRegionsCall key userId days, getCitiesCall key userId days]

/-- C1: a failure of the awaited click-event publication is caught and
logged, and the resolution returns exactly the result it would have
returned had publication succeeded; a publication failure never changes
the HTTP outcome of the resolution request. -/
theorem publish_failure_contained (gl : String → Option Link)
    (verify : String → String → Bool) (key pw : String) (referer : Option String)
    (msg : String) :
    (findOne gl verify (Except.error msg) key pw referer).result
      = (findOne gl verify (Except.ok ()) key pw referer).result ∧
    (∀ r, (findOne gl verify (Except.ok ()) key pw referer).result = Except.ok r →
      (findOne gl verify (Except.error msg) key pw referer).logs
        = ["Error while publishing shortened url: " ++ msg]) := by
  cases h : gl key with
  | none => simp [findOne, h]
  | some data =>
    cases hp : data.password with
    | none => simp [findOne, findOnePublish, h, hp]
    | some ph =>
      by_cases hv : ph.isEmpty = false ∧ verify ph pw = false
      · simp [findOne, findOnePublish, h, hp, hv]
      · simp [findOne, findOnePublish, h, hp, hv]

theorem publish_failure_contained_witness :
    (findOne (getLink [⟨"abc1", "https://example.com", none, none, []⟩] 5)
        (fun _ _ => true) (Except.error "boom") "abc1" "" none).result
      = (findOne (getLink [⟨"abc1", "https://example.com", none, none, []⟩] 5)
        (fun _ _ => true) (Except.ok ()) "abc1" "" none).result ∧
    (findOne (getLink [⟨"abc1", "https://example.com", none, none, []⟩] 5)
        (fun _ _ => true) (Except.error "boom") "abc1" "" none).logs
      = ["Error while publishing shortened url: boom"] :=
  ⟨(publish_failure_contained (getLink [⟨"abc1", "https://example.com", none, none, []⟩] 5)
      (fun _ _ => true) "abc1" "" none "boom").1,
    (publish_failure_contained (getLink [⟨"abc1", "https://example.com", none, none, []⟩] 5)
      (fun _ _ => true) "abc1" "" none "boom").2 ⟨"https://example.com", "abc1"⟩ (by decide)⟩

/-- C3: resolving a link that is past its expiry yields exactly the same
error (kind and message) as resolving a key for which no link exists; the
two cases are indistinguishable through the resolve operation's failure. -/
theorem expired_resolves_like_missing (store : List Link) (now : Nat)
    (key1 key2 pw : String) (verify : String → String → Bool)
    (pubRes : Except String Unit) (referer : Option String) (l : Link) (t : Nat)
    (h1 : store.find? (fun x => x.key == key1) = some l)
    (h2 : l.expiresAt = some t) (h3 : t < now)
    (h4 : store.find? (fun x => x.key == key2) = none) :
    (findOne (getLink store now) verify pubRes key1 pw referer).result
      = Except.error (HttpError.badRequest "Shortened url is wrong or expired") ∧
    (findOne (getLink store now) verify pubRes key2 pw referer).result
      = Except.error (HttpError.badRequest "Shortened url is wrong or expired") := by
  constructor
  · have hg : getLink store now key1 = none := by
      simp [getLink, h1, h2, h3]
    simp [findOne, hg]
  · have hg : getLink store now key2 = none := by
      simp [getLink, h4]
    simp [findOne, hg]

theorem expired_resolves_like_missing_witness :
    (findOne (getLink [⟨"old1", "https://old.example", none, some 3, []⟩] 10)
        (fun _ _ => true) (Except.ok ()) "old1" "" none).result
      = Except.error (HttpError.badRequest "Shortened url is wrong or expired") ∧
    (findOne (getLink [⟨"old1", "https://old.example", none, some 3, []⟩] 10)
        (fun _ _ => true) (Except.ok ()) "nope" "" none).result
      = Except.error (HttpError.badRequest "Shortened url is wrong or expired") :=
  expired_resolves_like_missing [⟨"old1", "https://old.example", none, some 3, []⟩] 10
    "old1" "nope" "" (fun _ _ => true) (Except.ok ()) none
    ⟨"old1", "https://old.example", none, some 3, []⟩ 3
    (by decide) (by decide) (by decide) (by decide)

/-- C4: for a link with a stored (non-empty) password hash, a supplied
password that does not verify fails with 401 Unauthorized, and one that
verifies succeeds and returns the destination; for a link without a stored
hash no password check is applied — the outcome is independent of the
supplied password and of the verifier. -/
theorem password_gating (gl : String → Option Link) (verify : String → String → Bool)
    (pubRes : Except String Unit) (key pw : String) (referer : Option String)
    (l : Link) (hgl : gl key = some l) :
    (∀ ph, l.password = some ph → ph ≠ "" → verify ph pw = false →
      (findOne gl verify pubRes key pw referer).result
        = Except.error (HttpError.unauthorized "Incorrect password for this url!")) ∧
    (∀ ph, l.password = some ph → verify ph pw = true →
      (findOne gl verify pubRes key pw referer).result
        = Except.ok ⟨addUtmParams l.url l.utm, l.key⟩) ∧
    (l.password = none →
      ∀ (verify2 : String → String → Bool) (pw2 : String),
        (findOne gl verify pubRes key pw referer).result
          = (findOne gl verify2 pubRes key pw2 referer).result) := by
  refine ⟨?_, ?_, ?_⟩
  · intro ph hp hne hv
    have he : ph.isEmpty = false := by
      cases hem : ph.isEmpty
      · rfl
      · exact absurd ((String.isEmpty_iff ph).mp hem) hne
    simp [findOne, hgl, hp, he, hv]
  · intro ph hp hv
    cases hem : ph.isEmpty with
    | true => cases pubRes <;> simp [findOne, findOnePublish, hgl, hp, hem]
    | false => cases pubRes <;> simp [findOne, findOnePublish, hgl, hp, hem, hv]
  · intro hnone verify2 pw2
    cases pubRes <;> simp [findOne, findOnePublish, hgl, hnone]

theorem password_gating_witness :
    ((findOne (getLink [⟨"abc1", "https://example.com", some "HASH", none, []⟩] 5)
        (fun h p => h == "HASH" && p == "pw1") (Except.ok ()) "abc1" "bad" none).result
      = Except.error (HttpError.unauthorized "Incorrect password for this url!")) ∧
    ((findOne (getLink [⟨"abc1", "https://example.com", some "HASH", none, []⟩] 5)
        (fun h p => h == "HASH" && p == "pw1") (Except.ok ()) "abc1" "pw1" none).result
      = Except.ok ⟨"https://example.com", "abc1"⟩) :=
  ⟨(password_gating (getLink [⟨"abc1", "https://example.com", some "HASH", none, []⟩] 5)
      (fun h p => h == "HASH" && p == "pw1") (Except.ok ()) "abc1" "bad" none
      ⟨"abc1", "https://example.com", some "HASH", none, []⟩ (by decide)).1
      "HASH" (by decide) (by decide) (by decide),
    (password_gating (getLink [⟨"abc1", "https://example.com", some "HASH", none, []⟩] 5)
      (fun h p => h == "HASH" && p == "pw1") (Except.ok ()) "abc1" "pw1" none
      ⟨"abc1", "https://example.com", some "HASH", none, []⟩ (by decide)).2.1
      "HASH" (by decide) (by decide)⟩

/-- C6: every successful resolution returns the looked-up link's canonical
key and its destination URL with the stored UTM set appended through
`addUtmParams`; `addUtmParams` appends a parameter only when it is present
in the stored set (an empty set appends nothing) and never appends a
parameter with an empty value (dropping the empty-valued parameters leaves
the result unchanged). -/
theorem resolution_payload_utm (gl : String → Option Link)
    (verify : String → String → Bool) (pubRes : Except String Unit)
    (key pw : String) (referer : Option String) (r : LinkResponse)
    (h : (findOne gl verify pubRes key pw referer).result = Except.ok r) :
    (∃ l, gl key = some l ∧ r = ⟨addUtmParams l.url l.utm, l.key⟩) ∧
    (∀ (url : String) (utm : List (String × String)),
      addUtmParams url utm = addUtmParams url (utm.filter fun p => !p.2.isEmpty)) ∧
    (∀ url : String, addUtmParams url ([] : List (String × String)) = url) := by
  refine ⟨?_, ?_, ?_⟩
  · cases hg : gl key with
    | none => simp [findOne, hg] at h
    | some data =>
      refine ⟨data, rfl, ?_⟩
      cases hp : data.password with
      | none =>
        cases pubRes <;> simp [findOne, findOnePublish, hg, hp] at h <;> exact h.symm
      | some ph =>
        by_cases hv : ph.isEmpty = false ∧ verify ph pw = false
        · simp [findOne, hg, hp, hv] at h
        · cases pubRes <;> simp [findOne, findOnePublish, hg, hp, hv] at h <;> exact h.symm
  · intro url utm
    unfold addUtmParams
    rw [List.filter_filter]
    simp
  · intro url
    rfl

theorem resolution_payload_utm_witness :
    (∃ l, getLink [⟨"abc1", "https://example.com",
        none, none, [("utm_source", "mail"), ("utm_term", "")]⟩] 5 "abc1" = some l ∧
      (⟨"https://example.com?utm_source=mail", "abc1"⟩ : LinkResponse)
        = ⟨addUtmParams l.url l.utm, l.key⟩) ∧
    addUtmParams "https://example.com" [("utm_source", "mail"), ("utm_term", "")]
      = "https://example.com?utm_source=mail" :=
  ⟨(resolution_payload_utm
      (getLink [⟨"abc1", "https://example.com",
        none, none, [("utm_source", "mail"), ("utm_term", "")]⟩] 5)
      (fun _ _ => true) (Except.ok ()) "abc1" "" none
      ⟨"https://example.com?utm_source=mail", "abc1"⟩ (by decide)).1,
    by decide⟩

/-- C2 counterexample: at a concrete resolution of an existing link the
completion of the awaited publish call occurs strictly before the response
in the handler's trace, contradicting the claim that the completion of the
resolution response is not sequenced after the completion of the publish
call. -/
theorem response_not_sequenced_after_publish_cex :
    ((findOne (getLink [⟨"abc1", "https://example.com", none, none, []⟩] 5)
        (fun _ _ => true) (Except.ok ()) "abc1" "" none).trace).indexOf
        (Step.publishDone true)
      < ((findOne (getLink [⟨"abc1", "https://example.com", none, none, []⟩] 5)
        (fun _ _ => true) (Except.ok ()) "abc1" "" none).trace).indexOf
        (Step.respond ⟨"https://example.com", "abc1"⟩) := by decide

/-- C2 (amended): the resolution handler awaits the publish call, so on a
successful resolution its trace is exactly lookup, publish call, publish
completion, response — the response is sequenced after the completion of
the publish (enqueue/dispatch) call; the publish itself, modelled from the
spec, enqueues and returns without a durable-persistence step, so the
response never waits for durable persistence. -/
theorem response_follows_awaited_publish (gl : String → Option Link)
    (verify : String → String → Bool) (key pw : String) (referer : Option String)
    (l : Link) (hgl : gl key = some l)
    (hpw : l.password = none ∨
      ∃ ph, l.password = some ph ∧ (ph = "" ∨ verify ph pw = true)) :
    (findOne gl verify (Except.ok ()) key pw referer).trace
      = [Step.getLinkCall key, Step.publishCall ⟨referer, l.key, l.url⟩,
          Step.publishDone true, Step.respond ⟨addUtmParams l.url l.utm, l.key⟩] ∧
    ProducerStep.persist ∉ publishSteps := by
  constructor
  · rcases hpw with hnone | ⟨ph, hp, hcase⟩
    · simp [findOne, findOnePublish, hgl, hnone]
    · rcases hcase with rfl | hv
      · have h0 : ("" : String).isEmpty = true := by decide
        simp [findOne, findOnePublish, hgl, hp, h0]
      · simp [findOne, findOnePublish, hgl, hp, hv]
  · decide

theorem response_follows_awaited_publish_witness :
    (findOne (getLink [⟨"abc1", "https://example.com", none, none, []⟩] 5)
        (fun _ _ => true) (Except.ok ()) "abc1" "" none).trace
      = [Step.getLinkCall "abc1",
          Step.publishCall ⟨none, "abc1", "https://example.com"⟩,
          Step.publishDone true,
          Step.respond ⟨"https://example.com", "abc1"⟩] ∧
    ProducerStep.persist ∉ publishSteps :=
  response_follows_awaited_publish
    (getLink [⟨"abc1", "https://example.com", none, none, []⟩] 5)
    (fun _ _ => true) "abc1" "" none
    ⟨"abc1", "https://example.com", none, none, []⟩ (by decide) (Or.inl rfl)

/-- C5 counterexample: the backend DTO validation accepts the
four-character key containing a character outside `[A-Za-z0-9-]`, and that
malformed key reaches the availability pre-check on the single-link path —
a key violating the character class is not rejected before the
availability check. -/
theorem dto_key_ignores_charclass_cex :
    dtoKeyValid "ab!d" = true ∧ isKeyChar '!' = false ∧ zodKeyValid "ab!d" = false ∧
    CheckStep.keyAvailabilityCheck "ab!d"
      ∈ (shortener ⟨false, fun _ => true, fun _ => true, fun p => p, fun _ => true⟩
          (some ⟨"u1", true⟩) ⟨"https://example.com", some "ab!d", none, false⟩).2 := by
  decide

/-- C5 (amended): the backend DTO accepts a supplied key exactly when its
length is between 4 and 20 — it enforces no character class — while the
frontend form schema accepts a supplied non-empty key exactly when it has
4 to 20 characters all drawn from `[A-Za-z0-9-]`. -/
theorem key_validation_split (s : String) :
    (dtoKeyValid s = true ↔ 4 ≤ s.length ∧ s.length ≤ 20) ∧
    (s ≠ "" → (zodKeyValid s = true ↔
      4 ≤ s.length ∧ s.length ≤ 20 ∧ ∀ c ∈ s.data, isKeyChar c = true)) := by
  constructor
  · simp [dtoKeyValid]
  · intro hs
    have hlen0 : s.length ≠ 0 := by
      intro h0
      apply hs
      cases s with
      | mk data =>
        have hd : data.length = 0 := h0
        have hnil : data = [] := List.length_eq_zero.mp hd
        subst hnil
        decide
    simp only [zodKeyValid, Bool.and_eq_true, Bool.or_eq_true, decide_eq_true_eq,
      List.all_eq_true, beq_iff_eq]
    constructor
    · rintro ⟨⟨h20, hcls⟩, h04⟩
      rcases h04 with h0 | h4
      · exact absurd h0 hlen0
      · exact ⟨h4, h20, hcls⟩
    · rintro ⟨h4, h20, hcls⟩
      exact ⟨⟨h20, hcls⟩, Or.inr h4⟩

theorem key_validation_split_witness :
    ("git-repo" ≠ ("" : String)) ∧
    (zodKeyValid "git-repo" = true ↔
      4 ≤ "git-repo".length ∧ "git-repo".length ≤ 20 ∧
        ∀ c ∈ "git-repo".data, isKeyChar c = true) :=
  ⟨by decide, (key_validation_split "git-repo").2 (by decide)⟩

/-- Helper: a temporary creation succeeding through the post-key tail of
the single-link path always calls the service with the password removed. -/
theorem shortenerAfterKey_temporary (env : Env) (user : Option UserContext)
    (dto : ShortenerDto) (pre : List CheckStep) (c : CreateCall)
    (htemp : dto.temporary = true)
    (hok : (shortenerAfterKey env user dto pre).1 = Except.ok c) :
    c = CreateCall.createTemporary ⟨dto.url, dto.key, none, dto.temporary⟩ := by
  unfold shortenerAfterKey at hok
  rw [htemp]
  simp [htemp] at hok
  exact hok.symm

/-- C7 counterexample: a bulk item carrying the temporary flag and a
supplied password reaches `createUsersShortenedUrl` with its password
intact — the bulk creation path discards nothing, refuting the claim for
"regardless of the creation path used". -/
theorem bulk_temporary_keeps_password_cex :
    (bulk ⟨false, fun _ => true, fun _ => true, fun p => p, fun _ => true⟩
        (some ⟨"u1", true⟩)
        [⟨"https://example.com", none, some "secret", true⟩]).1
      = Except.ok [CreateCall.createForUser "u1"
          ⟨"https://example.com", none, some "secret", true⟩] ∧
    (⟨"https://example.com", none, some "secret", true⟩ : ShortenerDto).temporary = true ∧
    (⟨"https://example.com", none, some "secret", true⟩ : ShortenerDto).password
      = some "secret" := by
  decide

/-- C7 (amended): on the single-link path every temporary creation that
reaches the service has its password removed first; the bulk path applies
no temporary handling and forwards every item — password included —
unchanged to `createUsersShortenedUrl`, so the no-password guarantee for
temporary links holds at the controller only on the single-link path. -/
theorem temporary_password_single_path_only (env : Env) (user : Option UserContext)
    (dto : ShortenerDto) (dtos : List ShortenerDto) (u : UserContext) :
    (∀ c, dto.temporary = true → (shortener env user dto).1 = Except.ok c →
      c = CreateCall.createTemporary ⟨dto.url, dto.key, none, dto.temporary⟩) ∧
    (∀ cs, (bulk env (some u) dtos).1 = Except.ok cs →
      cs = dtos.map fun d => CreateCall.createForUser u.id d) := by
  constructor
  · intro c htemp hok
    unfold shortener at hok
    by_cases hsafe : (env.safeUrlEnable && !env.isSafe dto.url) = true
    · simp [hsafe] at hok
    · cases hk : dto.key with
      | none =>
        simp [hsafe, hk] at hok
        exact hk ▸ shortenerAfterKey_temporary env user dto _ c htemp hok
      | some k =>
        by_cases hke : k.isEmpty = true
        · simp [hsafe, hk, hke] at hok
          exact hk ▸ shortenerAfterKey_temporary env user dto _ c htemp hok
        · by_cases hav : env.keyAvailable k = true
          · simp [hsafe, hk, hke, hav] at hok
            exact hk ▸ shortenerAfterKey_temporary env user dto _ c htemp hok
          · simp [hsafe, hk, hke, hav] at hok
  · intro cs hok
    unfold bulk at hok
    by_cases hsafe : (env.safeUrlEnable && !(dtos.all fun d => env.isSafe d.url)) = true
    · simp [hsafe] at hok
    · cases hv : u.verified with
      | true =>
        simp [hsafe, hv] at hok
        exact hok.symm
      | false => simp [hsafe, hv] at hok

theorem temporary_password_single_path_only_witness :
    CreateCall.createTemporary ⟨"https://example.com", none, none, true⟩
      = CreateCall.createTemporary ⟨"https://example.com", none, none, true⟩ :=
  (temporary_password_single_path_only
    ⟨false, fun _ => true, fun _ => true, fun p => p, fun _ => true⟩
    (some ⟨"u1", true⟩) ⟨"https://example.com", none, some "pw1", true⟩
    [] ⟨"u1", true⟩).1
    (CreateCall.createTemporary ⟨"https://example.com", none, none, true⟩)
    (by decide) (by decide)

/-- C8: the grouped analytics handlers cover exactly the six dimensions
device, os, browser, country, region and city, in declaration order, and
only the city handler passes an include (joining the country dimension);
every other handler passes no include. -/
theorem grouped_dimensions (key userId : String) (days : Nat) :
    (groupedHandlers key userId days).map GroupedCall.field
      = ["device", "os", "browser", "country", "region", "city"] ∧
    (∀ c ∈ groupedHandlers key userId days,
      c.inc = if c.field = "city" then some ⟨true⟩ else none) := by
  refine ⟨rfl, ?_⟩
  intro c hc
  simp only [groupedHandlers, getDevicesCall, getOsCall, getBrowsersCall,
    getCountriesCall, getRegionsCall, getCitiesCall, List.mem_cons,
    List.not_mem_nil, or_false] at hc
  rcases hc with rfl | rfl | rfl | rfl | rfl | rfl <;> rfl

theorem grouped_dimensions_witness :
    (getCitiesCall "k1" "u1" 7).inc
      = if (getCitiesCall "k1" "u1" 7).field = "city" then some ⟨true⟩ else none :=
  (grouped_dimensions "k1" "u1" 7).2 (getCitiesCall "k1" "u1" 7) (by decide)

/-- C9: every per-key analytics query — clicks over time and every grouped
dimension — fails with 404 `Link not found` when no stored link has both
the requested key and the requesting user as owner, whatever the
aggregation functions return; no aggregation result ever reaches the
response, so one user's queries never return data for another user's
link. -/
theorem analytics_owner_scoping {α β : Type} (db : List StoredLink)
    (clicksOverTime : String → Nat → α)
    (grouped : String → String → Nat → Option IncludeSpec → β)
    (key userId : String) (days : Nat)
    (h : ∀ l ∈ db, ¬(l.key = key ∧ l.userId = userId)) :
    getAnalytics db clicksOverTime key userId days
        = Except.error (HttpError.notFound "Link not found") ∧
    (∀ field inc, getGroupedData db grouped key userId days field inc
        = Except.error (HttpError.notFound "Link not found")) := by
  have hf : findLink db key userId = Except.error (HttpError.notFound "Link not found") := by
    have hn : db.find? (fun l => l.key == key && l.userId == userId) = none := by
      rw [List.find?_eq_none]
      intro l hl
      simp only [Bool.and_eq_true, beq_iff_eq]
      exact h l hl
    simp [findLink, hn]
  exact ⟨by simp [getAnalytics, hf, Except.map],
    fun field inc => by simp [getGroupedData, hf, Except.map]⟩

theorem analytics_owner_scoping_witness :
    getAnalytics [⟨"id1", "abc1", "owner2", "https://example.com"⟩]
        (fun _ _ => (0 : Nat)) "abc1" "owner1" 7
      = Except.error (HttpError.notFound "Link not found") ∧
    getGroupedData [⟨"id1", "abc1", "owner2", "https://example.com"⟩]
        (fun _ _ _ _ => (0 : Nat)) "abc1" "owner1" 7 "device" none
      = Except.error (HttpError.notFound "Link not found") :=
  ⟨(analytics_owner_scoping [⟨"id1", "abc1", "owner2", "https://example.com"⟩]
      (fun _ _ => (0 : Nat)) (fun _ _ _ _ => (0 : Nat)) "abc1" "owner1" 7
      (by decide)).1,
    (analytics_owner_scoping [⟨"id1", "abc1", "owner2", "https://example.com"⟩]
      (fun _ _ => (0 : Nat)) (fun _ _ _ _ => (0 : Nat)) "abc1" "owner1" 7
      (by decide)).2 "device" none⟩

/-- Helper: the bulk trace is the safe-url steps, possibly followed by the
verification gate. -/
theorem bulk_trace_cases (env : Env) (user : Option UserContext)
    (dtos : List ShortenerDto) :
    (bulk env user dtos).2
        = (if env.safeUrlEnable then dtos.map (fun d => CheckStep.safeUrlCheck d.url) else [])
      ∨ (bulk env user dtos).2
        = (if env.safeUrlEnable then dtos.map (fun d => CheckStep.safeUrlCheck d.url) else [])
          ++ [CheckStep.verifiedCheck] := by
  unfold bulk
  by_cases hsafe : (env.safeUrlEnable && !(dtos.all fun d => env.isSafe d.url)) = true
  · simp [hsafe]
  · cases user with
    | none => simp [hsafe]
    | some u => cases hv : u.verified <;> simp [hsafe, hv]

/-- Helper: every member of the safe-url step list is a safe-url check. -/
theorem mem_safeSteps {env : Env} {dtos : List ShortenerDto} {s : CheckStep}
    (hs : s ∈ (if env.safeUrlEnable then
      dtos.map (fun d => CheckStep.safeUrlCheck d.url) else [])) :
    ∃ u, s = CheckStep.safeUrlCheck u := by
  by_cases he : env.safeUrlEnable = true
  · simp only [he, if_true, List.mem_map] at hs
    obtain ⟨d, _, hfd⟩ := hs
    exact ⟨d.url, hfd.symm⟩
  · simp [he] at hs

/-- C10: the bulk creation path performs only safe-url checks and the
verification gate — it never performs an availability pre-check, temporary
handling, password hashing, or a quota check — while the single-link path
performs the availability pre-check, the hashing step and the quota check
on a keyed password-carrying request, and the temporary handling on a
temporary request; the two creation paths are therefore not equivalent. -/
theorem bulk_omits_single_path_checks (env : Env) (user : Option UserContext)
    (dtos : List ShortenerDto) :
    (∀ s ∈ (bulk env user dtos).2,
      (∃ u, s = CheckStep.safeUrlCheck u) ∨ s = CheckStep.verifiedCheck) ∧
    (∀ k, CheckStep.keyAvailabilityCheck k ∉ (bulk env user dtos).2) ∧
    CheckStep.temporaryHandling ∉ (bulk env user dtos).2 ∧
    CheckStep.passwordHashing ∉ (bulk env user dtos).2 ∧
    (∀ uid, CheckStep.quotaCheck uid ∉ (bulk env user dtos).2) ∧
    ((shortener ⟨false, fun _ => true, fun _ => true, fun p => p, fun _ => true⟩
        (some ⟨"u1", true⟩) ⟨"https://example.com", some "mykey", some "pw1", false⟩).2
      = [CheckStep.keyAvailabilityCheck "mykey", CheckStep.verifiedCheck,
          CheckStep.passwordHashing, CheckStep.quotaCheck "u1"]) ∧
    ((shortener ⟨false, fun _ => true, fun _ => true, fun p => p, fun _ => true⟩
        (some ⟨"u1", true⟩) ⟨"https://example.com", none, some "pw1", true⟩).2
      = [CheckStep.temporaryHandling]) := by
  have honly : ∀ s ∈ (bulk env user dtos).2,
      (∃ u, s = CheckStep.safeUrlCheck u) ∨ s = CheckStep.verifiedCheck := by
    intro s hs
    rcases bulk_trace_cases env user dtos with hsh | hsh <;> rw [hsh] at hs
    · exact Or.inl (mem_safeSteps hs)
    · rcases List.mem_append.mp hs with h1 | h1
      · exact Or.inl (mem_safeSteps h1)
      · simp only [List.mem_cons, List.not_mem_nil, or_false] at h1
        exact Or.inr h1
  refine ⟨honly, ?_, ?_, ?_, ?_, by decide, by decide⟩
  · intro k hmem
    rcases honly _ hmem with ⟨u, hu⟩ | hu <;> simp at hu
  · intro hmem
    rcases honly _ hmem with ⟨u, hu⟩ | hu <;> simp at hu
  · intro hmem
    rcases honly _ hmem with ⟨u, hu⟩ | hu <;> simp at hu
  · intro uid hmem
    rcases honly _ hmem with ⟨u, hu⟩ | hu <;> simp at hu

theorem bulk_omits_single_path_checks_witness :
    (∃ u, CheckStep.safeUrlCheck "https://example.com" = CheckStep.safeUrlCheck u)
      ∨ CheckStep.safeUrlCheck "https://example.com" = CheckStep.verifiedCheck :=
  (bulk_omits_single_path_checks
    ⟨true, fun _ => true, fun _ => true, fun p => p, fun _ => true⟩
    (some ⟨"u1", true⟩) [⟨"https://example.com", none, none, false⟩]).1
    (CheckStep.safeUrlCheck "https://example.com") (by decide)

end ReducedTo
